import Mathlib

/-!
Verification of the page-layout and text-fitting engine of
`src/packages/pdf-create/pdf-bleed.py` against its specification.

Python floats are embedded as exact rationals (`ℚ`), so every arithmetic
identity below is the real-number semantics of the corresponding float
expression.  External collaborators (the reportlab canvas, PIL image
decoding) are abstracted as function parameters; everything else is a
direct transcription of the Python source.
-/

/-- `cm_to_points` of pdf-bleed.py (line 29): `(cm_val / 2.54) * 72`. -/
def cm_to_points (cm_val : ℚ) : ℚ :=
  (cm_val / 2.54) * 72

/-- `final_width_cm` of pdf-bleed.py (line 248): `trim_width_cm + (bleed_cm * 2)`. -/
def final_width_cm (trim_width_cm bleed_cm : ℚ) : ℚ :=
  trim_width_cm + (bleed_cm * 2)

/-- `final_height_cm` of pdf-bleed.py (line 249): `trim_height_cm + (bleed_cm * 2)`. -/
def final_height_cm (trim_height_cm bleed_cm : ℚ) : ℚ :=
  trim_height_cm + (bleed_cm * 2)

/-- The auto-trim branch of pdf-bleed.py (lines 219-246), as a function of the
sample image's pixel size `(w, h)` and the three CLI presets.  The code only
computes an aspect when `h > 0` (`if h > 0:` at line 225); otherwise the
default trim `19 × 19` set at lines 190-191 is kept.  Tolerance `tol = 0.02`,
square branch uses `args.square_size_cm` for both dimensions, the rectangular
branch assigns `(rect_w, rect_h)` when `aspect >= 1.0` and the swapped pair
otherwise. -/
def auto_trim (w h : ℕ) (square_size_cm rect_width_cm rect_height_cm : ℚ) : ℚ × ℚ :=
  if h = 0 then (19, 19)
  else if |(w : ℚ) / (h : ℚ) - 1| ≤ 0.02 then (square_size_cm, square_size_cm)
  else if 1 ≤ (w : ℚ) / (h : ℚ) then (rect_width_cm, rect_height_cm)
  else (rect_height_cm, rect_width_cm)

/-- Relative luminance `0.2126*r + 0.7152*g + 0.0722*b` as computed at
line 82 of pdf-bleed.py (and again in `pick_text_color`, line 105). -/
def luminance (c : ℚ × ℚ × ℚ) : ℚ :=
  0.2126 * c.1 + 0.7152 * c.2.1 + 0.0722 * c.2.2

/-- `scale_factor` of line 88 of pdf-bleed.py:
`0.25 / lum if lum > 0 else 4.0`. -/
def scale_factor (c : ℚ × ℚ × ℚ) : ℚ :=
  if 0 < luminance c then 0.25 / luminance c else 4.0

/-- The dark-color rescaling step of `extract_bg_colors` (lines 86-91):
if the luminance of the blended base color is `< 0.25`, multiply every
channel by `scale_factor` and clamp each channel to `1.0` (`min(x, 1.0)`);
otherwise return the color unchanged. -/
def rescale_dark (c : ℚ × ℚ × ℚ) : ℚ × ℚ × ℚ :=
  if luminance c < 0.25 then
    (min (c.1 * scale_factor c) 1, min (c.2.1 * scale_factor c) 1,
      min (c.2.2 * scale_factor c) 1)
  else c

/-- `pick_text_color` (lines 103-106): black text over light backgrounds
(`lum > 0.6`), white text otherwise. -/
def pick_text_color (c : ℚ × ℚ × ℚ) : ℚ × ℚ × ℚ :=
  if 0.6 < luminance c then (0, 0, 0) else (1, 1, 1)

/-- The fallback gray `(0.95, 0.95, 0.95)` stored on decode failure
(line 98 of pdf-bleed.py). -/
def fallback_gray : ℚ × ℚ × ℚ := (0.95, 0.95, 0.95)

/-- Result of one call to `extract_bg_colors`: the returned color, the cache
after the call, and how many image decodes the call performed. -/
structure ExtractResult where
  color : ℚ × ℚ × ℚ
  cache : List (String × (ℚ × ℚ × ℚ))
  decodes : ℕ
  deriving DecidableEq

/-- `extract_bg_colors` (lines 64-100) with the PIL decode + 64×64 downsample +
mean/median blend step abstracted as `sample : String → Option (ℚ × ℚ × ℚ)`
(`none` models the `except` branch, a decode failure).  The process-wide dict
`_color_cache` is passed explicitly as an association list.  A cache hit
returns the stored tuple without touching the image; a miss decodes once,
applies the dark-color rescaling, stores the result (the fallback gray on
failure) and returns it. -/
def extract_bg_colors (sample : String → Option (ℚ × ℚ × ℚ))
    (cache : List (String × (ℚ × ℚ × ℚ))) (image_path : String) : ExtractResult :=
  match cache.lookup image_path with
  | some c => ⟨c, cache, 0⟩
  | none =>
      match sample image_path with
      | some base =>
          let result := rescale_dark base
          ⟨result, (image_path, result) :: cache, 1⟩
      | none => ⟨fallback_gray, (image_path, fallback_gray) :: cache, 1⟩

/-- One page of an output document, tagged by its role.  `textPage i` and
`imagePage i` carry the 1-indexed scene number they belong to. -/
inductive Page where
  | coverPage : Page
  | frontMatter : Page
  | textPage : ℕ → Page
  | imagePage : ℕ → Page
  | closingPage : Page
  | backPage : Page
  deriving DecidableEq

/-- The two pages emitted for scene `idx` (1-indexed): both scene loops of
pdf-bleed.py (flat mode, lines 345-378; JSON mode, lines 459-491) test
`idx % 2 != 0` and emit text page then image page for odd `idx`, image page
then text page for even `idx`. -/
def scene_pages (idx : ℕ) : List Page :=
  if idx % 2 ≠ 0 then [Page.textPage idx, Page.imagePage idx]
  else [Page.imagePage idx, Page.textPage idx]

/-- Pages emitted for scenes `1..n`, in loop order. -/
def scenes_pages : ℕ → List Page
  | 0 => []
  | n + 1 => scenes_pages n ++ scene_pages (n + 1)

/-- Flat (markdown + folder) mode, lines 322-343 of pdf-bleed.py: the run
aborts with `sys.exit(1)` before the canvas is even created when either
input list is empty or the image count differs from the text-page count
(`none`); otherwise it announces `total_pages = len(image_files) * 2` and
emits the alternating scene pages. -/
def flat_mode_run (image_count text_count : ℕ) : Option (ℕ × List Page) :=
  if image_count = 0 ∨ text_count = 0 then none
  else if image_count ≠ text_count then none
  else some (image_count * 2, scenes_pages image_count)

/-- The JSON-mode inputs that determine document structure: scene count,
presence of `cover.*` / `back.*` image files, and the two split flags. -/
structure JsonConfig where
  sceneCount : ℕ
  hasCover : Bool
  hasBack : Bool
  splitCover : Bool
  splitBack : Bool

/-- A separate cover document is created iff `args.split_cover and
cover_image_path` (line 389 of pdf-bleed.py). -/
def cover_pdf_created (cfg : JsonConfig) : Bool :=
  cfg.splitCover && cfg.hasCover

/-- A separate back document is created iff a back image exists
(line 404 of pdf-bleed.py: `if back_image_path:`), regardless of
`--split-back`. -/
def back_pdf_created (cfg : JsonConfig) : Bool :=
  cfg.hasBack

/-- `include_cover_in_main` (line 423):
`not (args.split_cover and cover_image_path)`. -/
def include_cover_in_main (cfg : JsonConfig) : Bool :=
  !(cfg.splitCover && cfg.hasCover)

/-- `total_pages` for the main JSON-mode document (line 425):
`(1 if (cover_image_path and include_cover_in_main) else 0) + 1 +
(len(scenes) * 2) + 1`. -/
def json_total_pages (cfg : JsonConfig) : ℕ :=
  (if cfg.hasCover && include_cover_in_main cfg then 1 else 0)
    + 1 + cfg.sceneCount * 2 + 1

/-- The page sequence of the main JSON-mode document (lines 431-500):
optional cover page, front-matter (short description) page, alternating
scene pages, closing (motivation end) page.  No back page is ever emitted
into the main stream. -/
def json_main_pages (cfg : JsonConfig) : List Page :=
  (if cfg.hasCover && include_cover_in_main cfg then [Page.coverPage] else [])
    ++ [Page.frontMatter] ++ scenes_pages cfg.sceneCount ++ [Page.closingPage]

/-- Number of extra (non-main) documents produced by a JSON-mode run. -/
def extra_documents (cfg : JsonConfig) : ℕ :=
  (if cover_pdf_created cfg then 1 else 0) + (if back_pdf_created cfg then 1 else 0)

/-- Greedy word wrap of one paragraph (lines 278-290 of `wrap_and_draw_text`
in pdf-bleed.py): words accumulate into the current line while the measured
width of `line + ' ' + word` stays within `max_width`; on overflow the
current line (if nonempty) is flushed and the word starts a new line.
`sw s fs` abstracts the canvas call `c.stringWidth(s, font_name, fs)`.
Returns the flushed lines and the pending final line. -/
def wrap_paragraph (sw : String → ℕ → ℚ) (max_width : ℚ) (font_size : ℕ)
    (words : List String) : List String × String :=
  words.foldl
    (fun acc w =>
      let candidate := if acc.2 = "" then w else acc.2 ++ " " ++ w
      if sw candidate font_size ≤ max_width then (acc.1, candidate)
      else (if acc.2 = "" then acc.1 else acc.1 ++ [acc.2], w))
    ([], "")

/-- `wrap_block` (lines 276-294): wrap each paragraph, flush its pending
line if nonempty, append a blank-line marker `""` after each paragraph, and
finally drop a single trailing blank marker.  The text block is represented
after Python's `split('\n')` / `split()`: a list of paragraphs, each a list
of nonempty whitespace-free words. -/
def wrap_block (sw : String → ℕ → ℚ) (max_width : ℚ) (font_size : ℕ)
    (paragraphs : List (List String)) : List String :=
  let lines := paragraphs.foldl
    (fun ls para =>
      let p := wrap_paragraph sw max_width font_size para
      (if p.2 = "" then ls ++ p.1 else ls ++ p.1 ++ [p.2]) ++ [""])
    []
  if lines.getLast? = some "" then lines.dropLast else lines

/-- Blank-marker count `gaps` (line 299):
`sum(1 for l in effective if l == '')`. -/
def gaps (lines : List String) : ℕ :=
  (lines.filter (fun l => l = "")).length

/-- `line_spacing = font_size * 1.35` (lines 274, 304, 307). -/
def line_spacing (font_size : ℕ) : ℚ :=
  (font_size : ℚ) * 1.35

/-- `total_height` (line 300):
`len(effective) * line_spacing - (line_spacing * 0.3 * gaps)`. -/
def total_height (font_size : ℕ) (lines : List String) : ℚ :=
  (lines.length : ℚ) * line_spacing font_size
    - line_spacing font_size * 0.3 * (gaps lines : ℚ)

/-- The shrink-to-fit loop of `wrap_and_draw_text` (lines 296-304): wrap the
block at the current font size; stop when the wrapped block's total height
fits within 85% of the page height or the font size has dropped below 14;
otherwise decrement the font size by 2 and re-wrap.  `max_width` is computed
once before the loop and does not change with the font size. -/
def fit_font_size (sw : String → ℕ → ℚ) (max_width page_height : ℚ)
    (paragraphs : List (List String)) (font_size : ℕ) : ℕ :=
  if h : total_height font_size (wrap_block sw max_width font_size paragraphs)
      ≤ page_height * 0.85 ∨ font_size < 14 then font_size
  else fit_font_size sw max_width page_height paragraphs (font_size - 2)
termination_by font_size
decreasing_by
  simp only [not_or, Nat.not_lt] at h
  omega

/-- The final font size chosen by `wrap_and_draw_text` for a text block on a
`page_width × page_height` rectangle.  Every call site of
`wrap_and_draw_text` uses the defaults `base_font_size = 26` and
`max_width_ratio = 0.7` (line 271), so `max_width = page_width * 0.7`. -/
def chosen_font_size (sw : String → ℕ → ℚ) (page_width page_height : ℚ)
    (paragraphs : List (List String)) (base_font_size : ℕ) : ℕ :=
  fit_font_size sw (page_width * 0.7) page_height paragraphs base_font_size

/-- Vertical advance of the drawing cursor per line (lines 312-319): a blank
marker moves the cursor down by `line_spacing * 0.3` only, a real line by a
full `line_spacing`. -/
def line_advance (font_size : ℕ) (ln : String) : ℚ :=
  if ln = "" then line_spacing font_size * 0.3 else line_spacing font_size

/-- Total vertical extent traversed by the drawing loop over the fitted
lines: the sum of the per-line cursor advances. -/
def traversed_height (font_size : ℕ) (lines : List String) : ℚ :=
  (lines.map (line_advance font_size)).sum

/-- C4: for every trim `(w, h)` and bleed `b ≥ 0`, the final page size is
exactly `(w + 2b, h + 2b)`, and cm-to-points conversion is the pure linear
map `x ↦ (x / 2.54) * 72 = x * 3600/127`: it is homogeneous and additive, so
repeated calls cannot drift. -/
theorem final_size_and_conversion_exact (w h b : ℚ) (_hb : 0 ≤ b) :
    final_width_cm w b = w + 2 * b ∧
    final_height_cm h b = h + 2 * b ∧
    (∀ x : ℚ, cm_to_points x = x * (3600 / 127)) ∧
    (∀ x y : ℚ, cm_to_points (x + y) = cm_to_points x + cm_to_points y) ∧
    (∀ a x : ℚ, cm_to_points (a * x) = a * cm_to_points x) := by
  refine ⟨by unfold final_width_cm; ring, by unfold final_height_cm; ring, ?_, ?_, ?_⟩
  · intro x; unfold cm_to_points; norm_num; ring
  · intro x y; unfold cm_to_points; ring
  · intro a x; unfold cm_to_points; ring

theorem final_size_and_conversion_exact_witness :
    final_width_cm 21 (1/2) = 21 + 2 * (1/2) ∧ cm_to_points 2.54 = 72 := by
  have h := final_size_and_conversion_exact 21 14.8 (1/2) (by norm_num)
  refine ⟨h.1, ?_⟩
  rw [h.2.2.1 2.54]
  norm_num

/-- C5: under auto-trim with a readable sample image of positive height,
aspect within `±0.02` of `1` selects the square preset for both dimensions;
otherwise aspect `> 1` selects `(rect-width, rect-height)` and aspect `< 1`
the swapped pair `(rect-height, rect-width)`. -/
theorem auto_trim_cases (w h : ℕ) (sq rcw rch : ℚ) (hh : 0 < h) :
    (|(w : ℚ) / (h : ℚ) - 1| ≤ 0.02 → auto_trim w h sq rcw rch = (sq, sq)) ∧
    (¬ |(w : ℚ) / (h : ℚ) - 1| ≤ 0.02 → 1 < (w : ℚ) / (h : ℚ) →
      auto_trim w h sq rcw rch = (rcw, rch)) ∧
    (¬ |(w : ℚ) / (h : ℚ) - 1| ≤ 0.02 → (w : ℚ) / (h : ℚ) < 1 →
      auto_trim w h sq rcw rch = (rch, rcw)) := by
  have hne : h ≠ 0 := hh.ne'
  unfold auto_trim
  rw [if_neg hne]
  refine ⟨fun hsq => ?_, fun hnsq hgt => ?_, fun hnsq hlt => ?_⟩
  · rw [if_pos hsq]
  · rw [if_neg hnsq, if_pos hgt.le]
  · rw [if_neg hnsq, if_neg (not_le.mpr hlt)]

theorem auto_trim_cases_witness :
    auto_trim 2 1 19 21 (148/10) = (21, 148/10) :=
  (auto_trim_cases 2 1 19 21 (148/10) (by norm_num)).2.1 (by norm_num) (by norm_num)

/-- C2 counterexample: the dark-color rescaling does not always reach
luminance `0.25`.  The saturated dark red `(0.5, 0, 0)` has luminance
`0.1063 < 0.25`; its red channel scaled by `0.25/0.1063` exceeds `1`, is
clamped, and the result `(1, 0, 0)` has luminance `0.2126 < 0.25`.  Pure
black `(0, 0, 0)` has luminance `0 < 0.25` and is returned unchanged (the
fixed factor `4.0` multiplies zero channels), keeping luminance `0`. -/
theorem rescale_dark_below_min_luminance :
    luminance (1/2, 0, 0) < 0.25 ∧ luminance (rescale_dark (1/2, 0, 0)) < 0.25 ∧
    luminance (0, 0, 0) < 0.25 ∧ rescale_dark (0, 0, 0) = (0, 0, 0) := by
  refine ⟨by norm_num [luminance], ?_, by norm_num [luminance], ?_⟩
  · norm_num [rescale_dark, scale_factor, luminance]
  · norm_num [rescale_dark, scale_factor, luminance]

/-- C2 (amended): for a sampled color of luminance `L < 0.25`, the rescaled
color's channels never exceed `1.0`; and whenever `L > 0` and no channel is
clamped (each scaled channel stays `≤ 1`), the resulting luminance is exactly
`0.25`.  With clamping, or from `L = 0`, the luminance can stay below `0.25`. -/
theorem rescale_dark_amended (c : ℚ × ℚ × ℚ) (hdark : luminance c < 0.25) :
    (rescale_dark c).1 ≤ 1 ∧ (rescale_dark c).2.1 ≤ 1 ∧ (rescale_dark c).2.2 ≤ 1 ∧
    (0 < luminance c →
      c.1 * (0.25 / luminance c) ≤ 1 →
      c.2.1 * (0.25 / luminance c) ≤ 1 →
      c.2.2 * (0.25 / luminance c) ≤ 1 →
      luminance (rescale_dark c) = 0.25) := by
  obtain ⟨r, g, b⟩ := c
  unfold rescale_dark
  rw [if_pos hdark]
  refine ⟨min_le_right _ 1, min_le_right _ 1, min_le_right _ 1, ?_⟩
  intro h0 hr hg hb
  have hs : scale_factor (r, g, b) = 0.25 / luminance (r, g, b) := by
    unfold scale_factor
    rw [if_pos h0]
  rw [hs, min_eq_left hr, min_eq_left hg, min_eq_left hb]
  have hL : luminance (r, g, b) ≠ 0 := ne_of_gt h0
  unfold luminance at *
  field_simp
  ring

theorem rescale_dark_amended_witness :
    luminance (1/10, 1/10, 1/10) < 0.25 ∧
    luminance (rescale_dark (1/10, 1/10, 1/10)) = 0.25 := by
  have h := rescale_dark_amended (1/10, 1/10, 1/10) (by norm_num [luminance])
  exact ⟨by norm_num [luminance],
    h.2.2.2 (by norm_num [luminance]) (by norm_num [luminance])
      (by norm_num [luminance]) (by norm_num [luminance])⟩

/-- C9: the background color sampler is idempotent per image path: a second
call on the same path returns exactly the tuple stored by the first call,
performs no decode, and leaves the cache unchanged; and starting from a cache
miss, a decode failure returns the fallback gray after exactly one decode
attempt (and caches it, so later calls return it from cache). -/
theorem extract_bg_colors_idempotent (sample : String → Option (ℚ × ℚ × ℚ))
    (cache : List (String × (ℚ × ℚ × ℚ))) (p : String) :
    (extract_bg_colors sample (extract_bg_colors sample cache p).cache p).color
      = (extract_bg_colors sample cache p).color ∧
    (extract_bg_colors sample (extract_bg_colors sample cache p).cache p).decodes = 0 ∧
    (extract_bg_colors sample (extract_bg_colors sample cache p).cache p).cache
      = (extract_bg_colors sample cache p).cache ∧
    (cache.lookup p = none → sample p = none →
      (extract_bg_colors sample cache p).color = fallback_gray ∧
      (extract_bg_colors sample cache p).decodes = 1) := by
  cases hl : cache.lookup p with
  | some c =>
      have h1 : extract_bg_colors sample cache p = ⟨c, cache, 0⟩ := by
        simp only [extract_bg_colors, hl]
      rw [h1]
      rw [h1]
      refine ⟨rfl, rfl, rfl, fun hn _ => ?_⟩
      exact Option.noConfusion hn
  | none =>
      cases hs : sample p with
      | some base =>
          have h1 : extract_bg_colors sample cache p
              = ⟨rescale_dark base, (p, rescale_dark base) :: cache, 1⟩ := by
            simp only [extract_bg_colors, hl, hs]
          have h2 : extract_bg_colors sample ((p, rescale_dark base) :: cache) p
              = ⟨rescale_dark base, (p, rescale_dark base) :: cache, 0⟩ := by
            simp [extract_bg_colors, List.lookup]
          rw [h1, h2]
          refine ⟨rfl, rfl, rfl, fun _ hn => ?_⟩
          exact Option.noConfusion hn
      | none =>
          have h1 : extract_bg_colors sample cache p
              = ⟨fallback_gray, (p, fallback_gray) :: cache, 1⟩ := by
            simp only [extract_bg_colors, hl, hs]
          have h2 : extract_bg_colors sample ((p, fallback_gray) :: cache) p
              = ⟨fallback_gray, (p, fallback_gray) :: cache, 0⟩ := by
            simp [extract_bg_colors, List.lookup]
          rw [h1, h2]
          exact ⟨rfl, rfl, rfl, fun _ _ => ⟨rfl, rfl⟩⟩

theorem extract_bg_colors_idempotent_witness :
    (extract_bg_colors (fun _ => none) [] "img").color = fallback_gray ∧
    (extract_bg_colors (fun _ => none)
      (extract_bg_colors (fun _ => none) [] "img").cache "img").decodes = 0 := by
  have h := extract_bg_colors_idempotent (fun _ => none) [] "img"
  exact ⟨(h.2.2.2 rfl rfl).1, h.2.1⟩

/-- Helper: every page emitted by the scene loop is a text or image page. -/
theorem mem_scenes_pages (p : Page) (n : ℕ) (hp : p ∈ scenes_pages n) :
    ∃ i, p = Page.textPage i ∨ p = Page.imagePage i := by
  induction n with
  | zero => exact absurd hp (List.not_mem_nil p)
  | succ n ih =>
      rcases List.mem_append.mp hp with h | h
      · exact ih h
      · unfold scene_pages at h
        rcases Decidable.em ((n + 1) % 2 ≠ 0) with hodd | heven
        · rw [if_pos hodd] at h
          rcases List.mem_pair.mp h with h | h
          · exact ⟨n + 1, Or.inl h⟩
          · exact ⟨n + 1, Or.inr h⟩
        · rw [if_neg heven] at h
          rcases List.mem_pair.mp h with h | h
          · exact ⟨n + 1, Or.inr h⟩
          · exact ⟨n + 1, Or.inl h⟩

/-- Helper: the scene loop for `n` scenes emits exactly `n * 2` pages. -/
theorem scenes_pages_length (n : ℕ) : (scenes_pages n).length = n * 2 := by
  induction n with
  | zero => rfl
  | succ n ih =>
      unfold scenes_pages scene_pages
      rcases Decidable.em ((n + 1) % 2 ≠ 0) with hodd | heven
      · rw [if_pos hodd, List.length_append, ih]
        simp only [List.length_cons, List.length_nil]
        omega
      · rw [if_neg heven, List.length_append, ih]
        simp only [List.length_cons, List.length_nil]
        omega

/-- Helper: the cover page never comes out of the scene loop. -/
theorem coverPage_not_mem_scenes_pages (n : ℕ) : Page.coverPage ∉ scenes_pages n := by
  intro h
  obtain ⟨i, hi | hi⟩ := mem_scenes_pages _ n h
  · exact Page.noConfusion hi
  · exact Page.noConfusion hi

/-- Helper: the back page never comes out of the scene loop. -/
theorem backPage_not_mem_scenes_pages (n : ℕ) : Page.backPage ∉ scenes_pages n := by
  intro h
  obtain ⟨i, hi | hi⟩ := mem_scenes_pages _ n h
  · exact Page.noConfusion hi
  · exact Page.noConfusion hi

/-- C6: in JSON mode with both a cover and a back image present and both
`--split-cover` and `--split-back` given, exactly two extra single-page
documents are produced, and the main document's announced page count is
`1 (front matter) + 2 × sceneCount + 1 (closing matter)`, which is exactly
the number of pages emitted; neither a cover page nor a back page appears
in the main document. -/
theorem json_split_cover_back_totals (cfg : JsonConfig)
    (hc : cfg.hasCover = true) (hb : cfg.hasBack = true)
    (hsc : cfg.splitCover = true) (_hsb : cfg.splitBack = true) :
    extra_documents cfg = 2 ∧
    json_total_pages cfg = 1 + cfg.sceneCount * 2 + 1 ∧
    (json_main_pages cfg).length = json_total_pages cfg ∧
    Page.coverPage ∉ json_main_pages cfg ∧
    Page.backPage ∉ json_main_pages cfg := by
  have hinc : include_cover_in_main cfg = false := by
    unfold include_cover_in_main
    rw [hc, hsc]
    rfl
  have hcov : (cfg.hasCover && include_cover_in_main cfg) = false := by
    rw [hinc, Bool.and_false]
  refine ⟨?_, ?_, ?_, ?_, ?_⟩
  · unfold extra_documents cover_pdf_created back_pdf_created
    rw [hc, hsc, hb]
    rfl
  · unfold json_total_pages
    rw [hcov]
    rfl
  · unfold json_main_pages json_total_pages
    rw [hcov]
    simp [scenes_pages_length, Nat.add_comm]
  · unfold json_main_pages
    rw [hcov]
    simp [coverPage_not_mem_scenes_pages]
  · unfold json_main_pages
    rw [hcov]
    simp [backPage_not_mem_scenes_pages]

theorem json_split_cover_back_totals_witness :
    extra_documents ⟨3, true, true, true, true⟩ = 2 ∧
    json_total_pages ⟨3, true, true, true, true⟩ = 1 + 3 * 2 + 1 ∧
    (json_main_pages ⟨3, true, true, true, true⟩).length
      = json_total_pages ⟨3, true, true, true, true⟩ ∧
    Page.coverPage ∉ json_main_pages ⟨3, true, true, true, true⟩ ∧
    Page.backPage ∉ json_main_pages ⟨3, true, true, true, true⟩ :=
  json_split_cover_back_totals ⟨3, true, true, true, true⟩ rfl rfl rfl rfl

/-- C7 counterexample: with zero images and zero text pages the counts are
equal, yet the run still exits before drawing (the emptiness check at
line 332 fires first), so no total of `2 × sceneCount = 0` is announced. -/
theorem flat_mode_equal_zero_counts_rejected :
    flat_mode_run 0 0 = none ∧ flat_mode_run 0 0 ≠ some (0 * 2, scenes_pages 0) := by
  decide

/-- C7 (amended): in flat mode, mismatched image/text counts abort the run
with a fatal error before any page is drawn; with equal *positive* counts
the announced total is `2 × sceneCount` and every announced page is drawn
(equal counts of zero are also rejected, by the emptiness check). -/
theorem flat_mode_validation_amended (image_count text_count : ℕ) :
    (image_count ≠ text_count → flat_mode_run image_count text_count = none) ∧
    (image_count = text_count → 0 < image_count →
      flat_mode_run image_count text_count
        = some (image_count * 2, scenes_pages image_count)) ∧
    (∀ total pages, flat_mode_run image_count text_count = some (total, pages) →
      pages.length = total) := by
  refine ⟨fun hne => ?_, fun heq hpos => ?_, fun total pages hsome => ?_⟩
  · unfold flat_mode_run
    rcases Decidable.em (image_count = 0 ∨ text_count = 0) with hz | hz
    · rw [if_pos hz]
    · rw [if_neg hz, if_pos hne]
  · unfold flat_mode_run
    rw [if_neg (by omega), if_neg (by omega)]
  · unfold flat_mode_run at hsome
    rcases Decidable.em (image_count = 0 ∨ text_count = 0) with hz | hz
    · rw [if_pos hz] at hsome
      exact Option.noConfusion hsome
    · rw [if_neg hz] at hsome
      rcases Decidable.em (image_count ≠ text_count) with hne | hne
      · rw [if_pos hne] at hsome
        exact Option.noConfusion hsome
      · rw [if_neg hne] at hsome
        obtain ⟨h1, h2⟩ := Prod.mk.injEq .. ▸ Option.some.injEq .. ▸ hsome
        subst h1 h2
        exact scenes_pages_length image_count

theorem flat_mode_validation_amended_witness :
    flat_mode_run 2 3 = none ∧ flat_mode_run 3 3 = some (6, scenes_pages 3) :=
  ⟨(flat_mode_validation_amended 2 3).1 (by decide),
   (flat_mode_validation_amended 3 3).2.1 rfl (by decide)⟩

/-- C8: the page sequencer alternates on the parity of the 1-indexed scene
number — odd scenes emit text page then image page, even scenes image page
then text page — and a flat-mode run with 3 scenes yields exactly the
6-page sequence text₁, image₁, image₂, text₂, text₃, image₃. -/
theorem scene_parity_alternation (idx : ℕ) (_hidx : 0 < idx) :
    (idx % 2 = 1 → scene_pages idx = [Page.textPage idx, Page.imagePage idx]) ∧
    (idx % 2 = 0 → scene_pages idx = [Page.imagePage idx, Page.textPage idx]) ∧
    flat_mode_run 3 3 = some (6,
      [Page.textPage 1, Page.imagePage 1, Page.imagePage 2, Page.textPage 2,
       Page.textPage 3, Page.imagePage 3]) := by
  refine ⟨fun hodd => ?_, fun heven => ?_, by decide⟩
  · unfold scene_pages
    rw [if_pos (by omega)]
  · unfold scene_pages
    rw [if_neg (by omega)]

theorem scene_parity_alternation_witness :
    scene_pages 1 = [Page.textPage 1, Page.imagePage 1] ∧
    scene_pages 2 = [Page.imagePage 2, Page.textPage 2] :=
  ⟨(scene_parity_alternation 1 (by decide)).1 (by decide),
   (scene_parity_alternation 2 (by decide)).2.1 (by decide)⟩

/-- C10: in JSON mode, whenever a back image exists a separate back document
is created whatever the `--split-back` flag says, the back page never
appears in the main document, and the main document's total page count is
the same as it would be with no back image at all. -/
theorem back_always_separate (cfg : JsonConfig) (hb : cfg.hasBack = true) :
    back_pdf_created cfg = true ∧
    back_pdf_created { cfg with splitBack := false } = true ∧
    back_pdf_created { cfg with splitBack := true } = true ∧
    Page.backPage ∉ json_main_pages cfg ∧
    json_total_pages cfg
      = json_total_pages { cfg with hasBack := false, splitBack := false } := by
  refine ⟨hb, hb, hb, ?_, rfl⟩
  unfold json_main_pages
  cases hcv : (cfg.hasCover && include_cover_in_main cfg) with
  | true => simp [backPage_not_mem_scenes_pages]
  | false => simp [backPage_not_mem_scenes_pages]

theorem back_always_separate_witness :
    back_pdf_created ⟨2, false, true, false, false⟩ = true ∧
    Page.backPage ∉ json_main_pages ⟨2, false, true, false, false⟩ :=
  ⟨(back_always_separate ⟨2, false, true, false, false⟩ rfl).1,
   (back_always_separate ⟨2, false, true, false, false⟩ rfl).2.2.2.1⟩

/-- Helper: the fitting loop stops and returns the current size when the
block fits or the size is below 14. -/
theorem fit_font_size_stop (sw : String → ℕ → ℚ) (max_width page_height : ℚ)
    (paragraphs : List (List String)) (font_size : ℕ)
    (h : total_height font_size (wrap_block sw max_width font_size paragraphs)
        ≤ page_height * 0.85 ∨ font_size < 14) :
    fit_font_size sw max_width page_height paragraphs font_size = font_size := by
  unfold fit_font_size
  exact dif_pos h

/-- Helper: when the block does not fit and the size is still at least 14,
the loop recurses at `font_size - 2`. -/
theorem fit_font_size_next (sw : String → ℕ → ℚ) (max_width page_height : ℚ)
    (paragraphs : List (List String)) (font_size : ℕ)
    (h : ¬(total_height font_size (wrap_block sw max_width font_size paragraphs)
        ≤ page_height * 0.85 ∨ font_size < 14)) :
    fit_font_size sw max_width page_height paragraphs font_size
      = fit_font_size sw max_width page_height paragraphs (font_size - 2) := by
  conv_lhs => rw [fit_font_size]
  exact dif_neg h

/-- Helper: starting from any size `≥ 12`, the fitting loop never returns a
size below 12 (stopping keeps the current size; recursing only happens from
sizes `≥ 14`). -/
theorem fit_font_size_ge (sw : String → ℕ → ℚ) (max_width page_height : ℚ)
    (paragraphs : List (List String)) :
    ∀ font_size, 12 ≤ font_size →
      12 ≤ fit_font_size sw max_width page_height paragraphs font_size := by
  intro font_size
  induction font_size using Nat.strong_induction_on with
  | _ fs ih =>
      intro hfs
      unfold fit_font_size
      split
      · exact hfs
      · rename_i h
        simp only [not_or, Nat.not_lt] at h
        exact ih (fs - 2) (by omega) (by omega)

/-- C1 counterexample: the fitter can return a font size strictly below the
14pt floor.  With a string-width oracle that reports every candidate as 1000
units wide on a 10 × 10 rectangle, no size from 26 down to 14 fits, and the
loop performs one further decrement before the `font_size < 14` check stops
it, returning 12. -/
theorem font_floor_counterexample :
    chosen_font_size (fun _ _ => 1000) 10 10 [["aa", "bb"]] 26 = 12 ∧
    (12 : ℕ) < 14 := by
  have hwb : ∀ fs : ℕ, wrap_block (fun _ _ => 1000) (10 * 0.7) fs [["aa", "bb"]]
      = ["aa", "bb"] := by
    intro fs
    norm_num [wrap_block, wrap_paragraph, List.foldl]
    decide
  have hth : ∀ fs : ℕ, total_height fs ["aa", "bb"] = 27/10 * (fs : ℚ) := by
    intro fs
    simp only [total_height, line_spacing]
    rw [show gaps ["aa", "bb"] = 0 from by decide]
    push_cast
    ring_nf
    norm_num
    ring
  refine ⟨?_, by norm_num⟩
  unfold chosen_font_size
  rw [fit_font_size_next _ _ _ _ _ (by rw [hwb, hth]; norm_num)]
  rw [fit_font_size_next _ _ _ _ _ (by rw [hwb, hth]; norm_num)]
  rw [fit_font_size_next _ _ _ _ _ (by rw [hwb, hth]; norm_num)]
  rw [fit_font_size_next _ _ _ _ _ (by rw [hwb, hth]; norm_num)]
  rw [fit_font_size_next _ _ _ _ _ (by rw [hwb, hth]; norm_num)]
  rw [fit_font_size_next _ _ _ _ _ (by rw [hwb, hth]; norm_num)]
  rw [fit_font_size_next _ _ _ _ _ (by rw [hwb, hth]; norm_num)]
  rw [fit_font_size_stop _ _ _ _ _ (Or.inr (by norm_num))]

/-- C1 (amended): starting from the base size 26, the fitter never returns a
size below 12 — the `font_size < 14` stop check is evaluated before the
decrement, so one final decrement from 14 to 12 is possible and 12, not 14,
is the effective floor — and for any input whose wrapped block height at the
base size 26 already fits within 85% of the rectangle height, it returns 26
unchanged. -/
theorem font_floor_amended (sw : String → ℕ → ℚ) (page_width page_height : ℚ)
    (paragraphs : List (List String)) :
    12 ≤ chosen_font_size sw page_width page_height paragraphs 26 ∧
    (total_height 26 (wrap_block sw (page_width * 0.7) 26 paragraphs)
        ≤ page_height * 0.85 →
      chosen_font_size sw page_width page_height paragraphs 26 = 26) := by
  constructor
  · exact fit_font_size_ge sw (page_width * 0.7) page_height paragraphs 26 (by omega)
  · intro hfit
    exact fit_font_size_stop sw (page_width * 0.7) page_height paragraphs 26 (Or.inl hfit)

theorem font_floor_amended_witness :
    12 ≤ chosen_font_size (fun _ _ => 0) 10 1000 [["a"]] 26 ∧
    chosen_font_size (fun _ _ => 0) 10 1000 [["a"]] 26 = 26 := by
  refine ⟨(font_floor_amended (fun _ _ => 0) 10 1000 [["a"]]).1,
    (font_floor_amended (fun _ _ => 0) 10 1000 [["a"]]).2 ?_⟩
  have hwb : wrap_block (fun _ _ => 0) (10 * 0.7) 26 [["a"]] = ["a"] := by
    norm_num [wrap_block, wrap_paragraph, List.foldl]
    decide
  rw [hwb]
  simp only [total_height, line_spacing]
  rw [show gaps ["a"] = 0 from by decide]
  norm_num

/-- Helper: one step of the blank-marker count. -/
theorem gaps_cons (hd : String) (tl : List String) :
    gaps (hd :: tl) = (if hd = "" then 1 else 0) + gaps tl := by
  unfold gaps
  rw [List.filter_cons]
  by_cases hhd : hd = ""
  · simp [hhd, Nat.add_comm]
  · simp [hhd]

/-- Helper: one step of the drawing traversal. -/
theorem traversed_height_cons (font_size : ℕ) (hd : String) (tl : List String) :
    traversed_height font_size (hd :: tl)
      = line_advance font_size hd + traversed_height font_size tl := by
  unfold traversed_height
  rw [List.map_cons, List.sum_cons]

/-- Helper: the traversed height is `n·s − 0.7·s·g` for `n` lines, spacing
`s` and `g` blank markers (each blank advances `0.3·s` instead of `s`). -/
theorem traversed_height_eq (font_size : ℕ) (lines : List String) :
    traversed_height font_size lines
      = (lines.length : ℚ) * line_spacing font_size
        - (7/10) * line_spacing font_size * (gaps lines : ℚ) := by
  induction lines with
  | nil => simp [traversed_height, gaps]
  | cons hd tl ih =>
      rw [traversed_height_cons, gaps_cons, ih, List.length_cons]
      by_cases hhd : hd = ""
      · rw [if_pos hhd]
        unfold line_advance
        rw [if_pos hhd]
        push_cast
        unfold line_spacing
        ring_nf
      · rw [if_neg hhd]
        unfold line_advance
        rw [if_neg hhd]
        push_cast
        ring

/-- C3 counterexample: a fitted block with a blank marker is not drawn over
the height the centering formula uses.  The two-paragraph block `[["a"],
["b"]]` wraps at the base size 26 to `["a", "", "b"]` and fits, yet the
height formula counts `0.7·lineSpacing` for the blank marker while the
drawing cursor advances only `0.3·lineSpacing`, so the traversed extent
differs from the computed height and the margins are unequal. -/
theorem vertical_centering_counterexample :
    chosen_font_size (fun s fs => (s.length : ℚ) * fs) 1000 1000 [["a"], ["b"]] 26 = 26 ∧
    wrap_block (fun s fs => (s.length : ℚ) * fs) (1000 * 0.7) 26 [["a"], ["b"]]
      = ["a", "", "b"] ∧
    traversed_height 26 ["a", "", "b"] ≠ total_height 26 ["a", "", "b"] := by
  have hwb : wrap_block (fun s fs => (s.length : ℚ) * fs) (1000 * 0.7) 26 [["a"], ["b"]]
      = ["a", "", "b"] := by
    norm_num [wrap_block, wrap_paragraph, List.foldl]
    decide
  have hth : total_height 26 ["a", "", "b"] ≤ 1000 * 0.85 := by
    simp only [total_height, line_spacing]
    rw [show gaps ["a", "", "b"] = 1 from by decide]
    norm_num
  refine ⟨?_, hwb, ?_⟩
  · unfold chosen_font_size
    rw [fit_font_size_stop _ _ _ _ _ (Or.inl (hwb.symm ▸ hth))]
  · rw [traversed_height_eq]
    simp only [total_height, line_spacing]
    rw [show gaps ["a", "", "b"] = 1 from by decide]
    norm_num

/-- C3 (amended): the vertical extent traversed while drawing equals the
computed block height minus `0.4·lineSpacing` per blank marker; in
particular the two agree — and the block is exactly vertically centered —
precisely for blocks without blank markers (single-paragraph text).  With
`g ≥ 1` blank markers the drawn block is shorter than the height used for
centering, leaving the bottom margin larger than the top margin by
`0.4·lineSpacing·g`. -/
theorem vertical_centering_amended (font_size : ℕ) (lines : List String) :
    traversed_height font_size lines
      = total_height font_size lines
        - (2/5) * line_spacing font_size * (gaps lines : ℚ) ∧
    (gaps lines = 0 →
      traversed_height font_size lines = total_height font_size lines) := by
  have h := traversed_height_eq font_size lines
  constructor
  · rw [h]
    unfold total_height
    ring
  · intro hg
    rw [h, hg]
    unfold total_height
    rw [hg]
    push_cast
    ring

theorem vertical_centering_amended_witness :
    traversed_height 26 ["a", "b"] = total_height 26 ["a", "b"] :=
  (vertical_centering_amended 26 ["a", "b"]).2 (by decide)
